import Mathlib

/-!
Shallow embedding of the telemetry-update engine of the Bambu Lab
Prometheus exporter (`src/exporter.py`, class `BambuExporter`, method
`update_metrics`, together with the metric definitions of `BambuMetrics`).

Modelling conventions:
* Gauge values are rationals (`Val`); a gauge that has never been written
  is `none`.
* Every device-client getter is modelled as `Except Unit (Option v)`:
  `.error ()` means the call raised, `.ok none` means it returned `None`,
  `.ok (some v)` means it returned the value `v`.
* The dynamic-label gauges (`bambu_current_file_info`, `bambu_nozzle_info`)
  are modelled as association lists from label values to gauge values;
  `_metrics.clear()` is the empty list.
* `update_metrics` loops over the fleet; the outer `try`/`except` of the
  per-printer body is modelled by letting the connectivity check raise
  (`mqtt_connected = .error ()`), in which case only the online gauge is
  written, exactly as the `except` handler does.
-/

/-- Numeric gauge values. -/
abbrev Val := Rat

/-- The per-printer gauges of `BambuMetrics` (plus the two dynamic-label
gauge families, as association lists from label values to gauge value).
`none` means the child gauge was never set. -/
structure Gauges where
  nozzle_temp : Option Val
  nozzle_target_temp : Option Val
  bed_temp : Option Val
  bed_target_temp : Option Val
  chamber_temp : Option Val
  print_progress : Option Val
  print_remaining_time : Option Val
  current_layer : Option Val
  total_layers : Option Val
  print_speed : Option Val
  printer_online : Option Val
  printer_state : Option Val
  wifi_signal : Option Val
  chamber_light : Option Val
  error_code : Option Val
  current_file : List (String × Val)
  nozzle_info : List ((String × String) × Val)
  deriving DecidableEq, Repr

/-- Freshly registered metrics: no child gauge set, no label combination. -/
def Gauges.init : Gauges :=
  ⟨none, none, none, none, none, none, none, none, none, none, none, none,
   none, none, none, [], []⟩

deriving instance DecidableEq for Except

/-- One poll cycle's worth of client-call outcomes for one printer:
`.error ()` = the call raised, `.ok none` = returned `None`,
`.ok (some v)` = returned `v`. -/
structure Sample where
  mqtt_connected : Except Unit Bool
  nozzle_temperature : Except Unit (Option Val)
  bed_temperature : Except Unit (Option Val)
  chamber_temperature : Except Unit (Option Val)
  percentage : Except Unit (Option Val)
  time : Except Unit (Option Val)
  current_layer_num : Except Unit (Option Val)
  total_layer_num : Except Unit (Option Val)
  print_speed : Except Unit (Option Val)
  wifi : Except Unit (Option String)
  light_state : Except Unit (Option String)
  state : Except Unit (Option String)
  gcode : Except Unit (Option String)
  error : Except Unit (Option Int)
  file_name : Except Unit (Option String)
  nozzle_ty : Except Unit (Option String)
  nozzle_diam : Except Unit (Option String)
  deriving DecidableEq, Repr

/-- A getter outcome counts as data when the call neither raised nor
returned `None`. -/
def present {v : Type} (r : Except Unit (Option v)) : Bool :=
  match r with
  | .ok (some _) => true
  | _ => false

/-- ASCII upper-casing of one character (the raw state and gcode-state
strings the device sends are ASCII, so this matches Python `str.upper`). -/
def upperChar (c : Char) : Char :=
  if 'a' ≤ c ∧ c ≤ 'z' then Char.ofNat (c.toNat - 32) else c

/-- ASCII lower-casing of one character (matches Python `str.lower` on the
ASCII light-state strings). -/
def lowerChar (c : Char) : Char :=
  if 'A' ≤ c ∧ c ≤ 'Z' then Char.ofNat (c.toNat + 32) else c

/-- Python `s.upper()` on ASCII strings. -/
def pyUpper (s : String) : String := ⟨s.data.map upperChar⟩

/-- Python `s.lower()` on ASCII strings. -/
def pyLower (s : String) : String := ⟨s.data.map lowerChar⟩

/-- Python `s.replace("dBm", "")`: remove every occurrence of the constant
pattern `dBm`, scanning left to right. -/
def removeDBm : List Char → List Char
  | 'd' :: 'B' :: 'm' :: rest => removeDBm rest
  | c :: rest => c :: removeDBm rest
  | [] => []

/-- ASCII whitespace, as Python `str.strip` removes it. -/
def isSpaceChar (c : Char) : Bool :=
  c = ' ' || c = '\t' || c = '\n' || c = '\r' || c = '\x0b' || c = '\x0c'

/-- Python `s.strip()`: drop whitespace from both ends. -/
def stripChars (cs : List Char) : List Char :=
  ((cs.dropWhile isSpaceChar).reverse.dropWhile isSpaceChar).reverse

/-- `str(wifi_signal).replace('dBm', '').strip()` (exporter.py line 388). -/
def wifiClean (s : String) : String := ⟨stripChars (removeDBm s.data)⟩

/-- Value of a digit string, most significant first. -/
def digitsVal (cs : List Char) : Nat :=
  cs.foldl (fun n c => 10 * n + (c.toNat - 48)) 0

/-- Unsigned decimal literal: digits, optionally followed by a point and
further digits; at least one digit overall. -/
def parseUnsigned (cs : List Char) : Option Rat :=
  let intPart := cs.takeWhile Char.isDigit
  let rest := cs.dropWhile Char.isDigit
  match rest with
  | [] => if intPart.isEmpty then none else some (digitsVal intPart : Rat)
  | '.' :: frac =>
      if frac.all Char.isDigit && !(intPart.isEmpty && frac.isEmpty) then
        some ((digitsVal intPart : Rat) + (digitsVal frac : Rat) / (10 : Rat) ^ frac.length)
      else none
  | _ => none

/-- Model of Python `float(s)` restricted to plain signed decimal literals
(no exponent, infinities, NaN, underscores or surrounding whitespace) —
the only shapes the exporter ever feeds it; every other string raises
`ValueError`, modelled as `none`. -/
def pyFloat (s : String) : Option Rat :=
  match s.data with
  | '-' :: r => (parseUnsigned r).map Neg.neg
  | '+' :: r => parseUnsigned r
  | r => parseUnsigned r

/-- The `state_mapping` dict of `update_metrics` (exporter.py lines
417-424): RUNNING is the same as PRINTING. -/
def state_mapping : List (String × Nat) :=
  [("IDLE", 0), ("PRINTING", 1), ("RUNNING", 1), ("PAUSED", 2),
   ("FINISH", 3), ("FAILED", 4)]

/-- The detailed-printer-state block (exporter.py lines 404-437).
`st` is the outcome of `printer.get_state()`, `gc` of reading
`printer.gcode_state` (its bare inner `except` turns a raise into `None`).
Result `some v` means the `printer_state` gauge is set to `v`; `none`
means the block leaves the gauge untouched (getter raised, caught by the
enclosing `except`, or `state` was `None`). -/
def stateUpdate (st gc : Except Unit (Option String)) : Option Nat :=
  match st with
  | .error _ => none
  | .ok stOpt =>
    let gcv : Option String :=
      match gc with
      | .error _ => none
      | .ok v => v
    match stOpt with
    | none => none
    | some s =>
      let state_str := pyUpper s
      let state_str :=
        match gcv with
        | some gstr =>
          if gstr ≠ "" then
            let gcode_str := pyUpper gstr
            if (state_mapping.lookup gcode_str).isSome then gcode_str else state_str
          else state_str
        | none => state_str
      some ((state_mapping.lookup state_str).getD 0)

/-- Nozzle-temperature try-block (lines 294-301): set the gauge only when
the getter returned a value. -/
def updNozzleTemp (g : Gauges) (r : Except Unit (Option Val)) : Gauges :=
  match r with
  | .ok (some v) => { g with nozzle_temp := some v }
  | _ => g

/-- Bed-temperature try-block (lines 303-309). -/
def updBedTemp (g : Gauges) (r : Except Unit (Option Val)) : Gauges :=
  match r with
  | .ok (some v) => { g with bed_temp := some v }
  | _ => g

/-- Chamber-temperature try-block (lines 311-317). -/
def updChamberTemp (g : Gauges) (r : Except Unit (Option Val)) : Gauges :=
  match r with
  | .ok (some v) => { g with chamber_temp := some v }
  | _ => g

/-- `data_received` after the three temperature try-blocks (lines 291-317):
it is set exactly when one of the three temperature getters returned a
value. No later field read feeds it. -/
def tempDataReceived (s : Sample) : Bool :=
  present s.nozzle_temperature || present s.bed_temperature ||
    present s.chamber_temperature

/-- Progress try-block (lines 343-348). -/
def updProgress (g : Gauges) (r : Except Unit (Option Val)) : Gauges :=
  match r with
  | .ok (some v) => { g with print_progress := some v }
  | _ => g

/-- Remaining-time try-block (lines 350-356): minutes are converted to
seconds before publishing. -/
def updRemainingTime (g : Gauges) (r : Except Unit (Option Val)) : Gauges :=
  match r with
  | .ok (some v) => { g with print_remaining_time := some (v * 60) }
  | _ => g

/-- Current-layer try-block (lines 358-363). -/
def updCurrentLayer (g : Gauges) (r : Except Unit (Option Val)) : Gauges :=
  match r with
  | .ok (some v) => { g with current_layer := some v }
  | _ => g

/-- Total-layers try-block (lines 365-370). -/
def updTotalLayers (g : Gauges) (r : Except Unit (Option Val)) : Gauges :=
  match r with
  | .ok (some v) => { g with total_layers := some v }
  | _ => g

/-- Print-speed try-block (lines 372-381). -/
def updPrintSpeed (g : Gauges) (r : Except Unit (Option Val)) : Gauges :=
  match r with
  | .ok (some v) => { g with print_speed := some v }
  | _ => g

/-- WiFi-signal try-block (lines 383-391): strip `dBm`, trim, parse with
`float`; a parse failure raises `ValueError`, which the enclosing `except`
catches, leaving the gauge untouched. -/
def updWifi (g : Gauges) (r : Except Unit (Option String)) : Gauges :=
  match r with
  | .ok (some w) =>
    match pyFloat (wifiClean w) with
    | some v => { g with wifi_signal := some v }
    | none => g
  | _ => g

/-- Chamber-light try-block (lines 393-401): case-insensitive comparison
with `on`. -/
def updLight (g : Gauges) (r : Except Unit (Option String)) : Gauges :=
  match r with
  | .ok (some l) =>
    { g with chamber_light := some (if pyLower l = "on" then (1 : Val) else 0) }
  | _ => g

/-- Printer-state try-block, gauge effect of `stateUpdate`. -/
def updState (g : Gauges) (st gc : Except Unit (Option String)) : Gauges :=
  match stateUpdate st gc with
  | some v => { g with printer_state := some ((v : Nat) : Val) }
  | none => g

/-- Error-code try-block (lines 439-445): `int(error_code) if error_code
else 0` on a present value. -/
def updErrorCode (g : Gauges) (r : Except Unit (Option Int)) : Gauges :=
  match r with
  | .ok (some e) => { g with error_code := some (if e ≠ 0 then (e : Val) else 0) }
  | _ => g

/-- Current-file try-block (lines 447-459): when the getter returns a
truthy (non-empty) filename, `_metrics.clear()` wipes every label
combination and the single new combination is set to 1; otherwise
(falsy value, `None`, or a raise) nothing is touched. -/
def updateCurrentFile (prev : List (String × Val))
    (r : Except Unit (Option String)) : List (String × Val) :=
  match r with
  | .ok (some f) => if f ≠ "" then [(f, 1)] else prev
  | _ => prev

/-- Nozzle-info try-block (lines 461-474): both getters must return a
non-`None` value (a raise in either aborts the block); then all label
combinations are cleared and the single new pair is set to 1. -/
def updateNozzleInfo (prev : List ((String × String) × Val))
    (t d : Except Unit (Option String)) : List ((String × String) × Val) :=
  match t, d with
  | .ok (some ty), .ok (some dm) => [((ty, dm), 1)]
  | _, _ => prev

/-- The not-connected branch (lines 271-288): online gauge to 0, then the
twelve telemetry gauges to 0. -/
def offlineResetDisconnected (g : Gauges) : Gauges :=
  { g with printer_online := some 0, nozzle_temp := some 0,
           nozzle_target_temp := some 0, bed_temp := some 0,
           bed_target_temp := some 0, chamber_temp := some 0,
           print_progress := some 0, print_remaining_time := some 0,
           current_layer := some 0, total_layers := some 0,
           print_speed := some 0, error_code := some 0,
           printer_state := some 0 }

/-- The connected-but-silent branch (lines 322-340): online gauge to 0,
then the twelve telemetry gauges to 0, and `continue`. -/
def offlineResetSilent (g : Gauges) : Gauges :=
  { g with printer_online := some 0, nozzle_temp := some 0,
           nozzle_target_temp := some 0, bed_temp := some 0,
           bed_target_temp := some 0, chamber_temp := some 0,
           print_progress := some 0, print_remaining_time := some 0,
           current_layer := some 0, total_layers := some 0,
           print_speed := some 0, error_code := some 0,
           printer_state := some 0 }

/-- One printer's pass of `update_metrics` (lines 266-480): the outer
`except` (modelled by the connectivity check raising) only writes
online = 0; a disconnected transport takes the first reset branch; then
the three temperature reads decide `data_received`; when no data was
received the silent reset runs and the body `continue`s; otherwise the
online gauge is set to 1 and the remaining fields are read and published
one by one, each inside its own try-block. -/
def updateDevice (g : Gauges) (s : Sample) : Gauges :=
  match s.mqtt_connected with
  | .error _ => { g with printer_online := some 0 }
  | .ok false => offlineResetDisconnected g
  | .ok true =>
    let g1 := updNozzleTemp g s.nozzle_temperature
    let g2 := updBedTemp g1 s.bed_temperature
    let g3 := updChamberTemp g2 s.chamber_temperature
    if tempDataReceived s then
      let g4 := { g3 with printer_online := some (1 : Val) }
      let g5 := updProgress g4 s.percentage
      let g6 := updRemainingTime g5 s.time
      let g7 := updCurrentLayer g6 s.current_layer_num
      let g8 := updTotalLayers g7 s.total_layer_num
      let g9 := updPrintSpeed g8 s.print_speed
      let g10 := updWifi g9 s.wifi
      let g11 := updLight g10 s.light_state
      let g12 := updState g11 s.state s.gcode
      let g13 := updErrorCode g12 s.error
      let g14 := { g13 with current_file := updateCurrentFile g13.current_file s.file_name }
      { g14 with nozzle_info := updateNozzleInfo g14.nozzle_info s.nozzle_ty s.nozzle_diam }
    else offlineResetSilent g3

/-- The whole `update_metrics` cycle over the fleet: every printer is
processed in order, independently. -/
def update_metrics (fleet : List (String × Gauges × Sample)) :
    List (String × Gauges) :=
  fleet.map (fun e => (e.1, updateDevice e.2.1 e.2.2))

/-- Spec-side reconciliation rule, read off the claim text: start from the
coarse state; when the granular signal is present and its upper-cased
value is recognized, it overrides; anything unrecognized maps to 0. -/
def specReconcile (coarse : String) (gc : Option String) : Nat :=
  let chosen :=
    match gc with
    | some gstr =>
      if (state_mapping.lookup (pyUpper gstr)).isSome then pyUpper gstr
      else pyUpper coarse
    | none => pyUpper coarse
  (state_mapping.lookup chosen).getD 0

/-- Spec-side flag, read off the claim text: true whenever any of the
telemetry fields returned a present value this cycle. -/
def specAnyFieldReturnedData (s : Sample) : Bool :=
  present s.nozzle_temperature || present s.bed_temperature ||
    present s.chamber_temperature || present s.percentage ||
    present s.time || present s.current_layer_num ||
    present s.total_layer_num || present s.print_speed ||
    present s.wifi || present s.light_state || present s.state ||
    present s.gcode || present s.error || present s.file_name ||
    present s.nozzle_ty || present s.nozzle_diam


/-! Frame lemmas: each field try-block writes only its own gauge. -/

theorem updNozzleTemp_frame (g : Gauges) (r : Except Unit (Option Val)) :
    (updNozzleTemp g r).printer_online = g.printer_online ∧
    (updNozzleTemp g r).print_progress = g.print_progress ∧
    (updNozzleTemp g r).print_remaining_time = g.print_remaining_time ∧
    (updNozzleTemp g r).printer_state = g.printer_state := by
  unfold updNozzleTemp; split <;> exact ⟨rfl, rfl, rfl, rfl⟩

theorem updBedTemp_frame (g : Gauges) (r : Except Unit (Option Val)) :
    (updBedTemp g r).printer_online = g.printer_online ∧
    (updBedTemp g r).nozzle_temp = g.nozzle_temp ∧
    (updBedTemp g r).print_progress = g.print_progress ∧
    (updBedTemp g r).print_remaining_time = g.print_remaining_time ∧
    (updBedTemp g r).printer_state = g.printer_state := by
  unfold updBedTemp; split <;> exact ⟨rfl, rfl, rfl, rfl, rfl⟩

theorem updChamberTemp_frame (g : Gauges) (r : Except Unit (Option Val)) :
    (updChamberTemp g r).printer_online = g.printer_online ∧
    (updChamberTemp g r).nozzle_temp = g.nozzle_temp ∧
    (updChamberTemp g r).print_progress = g.print_progress ∧
    (updChamberTemp g r).print_remaining_time = g.print_remaining_time ∧
    (updChamberTemp g r).printer_state = g.printer_state := by
  unfold updChamberTemp; split <;> exact ⟨rfl, rfl, rfl, rfl, rfl⟩

theorem updProgress_frame (g : Gauges) (r : Except Unit (Option Val)) :
    (updProgress g r).printer_online = g.printer_online ∧
    (updProgress g r).nozzle_temp = g.nozzle_temp ∧
    (updProgress g r).print_remaining_time = g.print_remaining_time ∧
    (updProgress g r).printer_state = g.printer_state := by
  unfold updProgress; split <;> exact ⟨rfl, rfl, rfl, rfl⟩

theorem updRemainingTime_frame (g : Gauges) (r : Except Unit (Option Val)) :
    (updRemainingTime g r).printer_online = g.printer_online ∧
    (updRemainingTime g r).nozzle_temp = g.nozzle_temp ∧
    (updRemainingTime g r).print_progress = g.print_progress ∧
    (updRemainingTime g r).printer_state = g.printer_state := by
  unfold updRemainingTime; split <;> exact ⟨rfl, rfl, rfl, rfl⟩

theorem updCurrentLayer_frame (g : Gauges) (r : Except Unit (Option Val)) :
    (updCurrentLayer g r).printer_online = g.printer_online ∧
    (updCurrentLayer g r).nozzle_temp = g.nozzle_temp ∧
    (updCurrentLayer g r).print_progress = g.print_progress ∧
    (updCurrentLayer g r).print_remaining_time = g.print_remaining_time ∧
    (updCurrentLayer g r).printer_state = g.printer_state := by
  unfold updCurrentLayer; split <;> exact ⟨rfl, rfl, rfl, rfl, rfl⟩

theorem updTotalLayers_frame (g : Gauges) (r : Except Unit (Option Val)) :
    (updTotalLayers g r).printer_online = g.printer_online ∧
    (updTotalLayers g r).nozzle_temp = g.nozzle_temp ∧
    (updTotalLayers g r).print_progress = g.print_progress ∧
    (updTotalLayers g r).print_remaining_time = g.print_remaining_time ∧
    (updTotalLayers g r).printer_state = g.printer_state := by
  unfold updTotalLayers; split <;> exact ⟨rfl, rfl, rfl, rfl, rfl⟩

theorem updPrintSpeed_frame (g : Gauges) (r : Except Unit (Option Val)) :
    (updPrintSpeed g r).printer_online = g.printer_online ∧
    (updPrintSpeed g r).nozzle_temp = g.nozzle_temp ∧
    (updPrintSpeed g r).print_progress = g.print_progress ∧
    (updPrintSpeed g r).print_remaining_time = g.print_remaining_time ∧
    (updPrintSpeed g r).printer_state = g.printer_state := by
  unfold updPrintSpeed; split <;> exact ⟨rfl, rfl, rfl, rfl, rfl⟩

theorem updWifi_frame (g : Gauges) (r : Except Unit (Option String)) :
    (updWifi g r).printer_online = g.printer_online ∧
    (updWifi g r).nozzle_temp = g.nozzle_temp ∧
    (updWifi g r).print_progress = g.print_progress ∧
    (updWifi g r).print_remaining_time = g.print_remaining_time ∧
    (updWifi g r).printer_state = g.printer_state := by
  unfold updWifi
  split
  · split <;> exact ⟨rfl, rfl, rfl, rfl, rfl⟩
  · exact ⟨rfl, rfl, rfl, rfl, rfl⟩

theorem updLight_frame (g : Gauges) (r : Except Unit (Option String)) :
    (updLight g r).printer_online = g.printer_online ∧
    (updLight g r).nozzle_temp = g.nozzle_temp ∧
    (updLight g r).print_progress = g.print_progress ∧
    (updLight g r).print_remaining_time = g.print_remaining_time ∧
    (updLight g r).printer_state = g.printer_state := by
  unfold updLight; split <;> exact ⟨rfl, rfl, rfl, rfl, rfl⟩

theorem updState_frame (g : Gauges) (st gc : Except Unit (Option String)) :
    (updState g st gc).printer_online = g.printer_online ∧
    (updState g st gc).nozzle_temp = g.nozzle_temp ∧
    (updState g st gc).print_progress = g.print_progress ∧
    (updState g st gc).print_remaining_time = g.print_remaining_time := by
  unfold updState; split <;> exact ⟨rfl, rfl, rfl, rfl⟩

theorem updErrorCode_frame (g : Gauges) (r : Except Unit (Option Int)) :
    (updErrorCode g r).printer_online = g.printer_online ∧
    (updErrorCode g r).nozzle_temp = g.nozzle_temp ∧
    (updErrorCode g r).print_progress = g.print_progress ∧
    (updErrorCode g r).print_remaining_time = g.print_remaining_time ∧
    (updErrorCode g r).printer_state = g.printer_state := by
  unfold updErrorCode; split <;> exact ⟨rfl, rfl, rfl, rfl, rfl⟩

/-! Behaviour lemmas for the field try-blocks. -/

theorem updNozzleTemp_absent (g : Gauges) (r : Except Unit (Option Val))
    (h : present r = false) : updNozzleTemp g r = g := by
  unfold updNozzleTemp
  cases r with
  | error e => rfl
  | ok o => cases o with
    | none => rfl
    | some v => simp [present] at h

theorem updBedTemp_absent (g : Gauges) (r : Except Unit (Option Val))
    (h : present r = false) : updBedTemp g r = g := by
  unfold updBedTemp
  cases r with
  | error e => rfl
  | ok o => cases o with
    | none => rfl
    | some v => simp [present] at h

theorem updChamberTemp_absent (g : Gauges) (r : Except Unit (Option Val))
    (h : present r = false) : updChamberTemp g r = g := by
  unfold updChamberTemp
  cases r with
  | error e => rfl
  | ok o => cases o with
    | none => rfl
    | some v => simp [present] at h

theorem updState_unchanged (g : Gauges) (st gc : Except Unit (Option String))
    (h : stateUpdate st gc = none) : updState g st gc = g := by
  unfold updState
  rw [h]

/-! Concrete cycle inputs used by the claim theorems below. -/

/-- A connected cycle in which every getter returns `None`. -/
def idleSample : Sample :=
  ⟨.ok true, .ok none, .ok none, .ok none, .ok none, .ok none, .ok none,
   .ok none, .ok none, .ok none, .ok none, .ok none, .ok none, .ok none,
   .ok none, .ok none, .ok none⟩

/-- Claim C1: state reconciliation. Whenever the coarse state field is
present, the published canonical state starts from the coarse value; a
present granular gcode-state whose upper-cased value is recognized
overrides it; RUNNING is a synonym for PRINTING; unrecognized values map
to 0. The published value always equals the spec-side reconciliation
`specReconcile`, and the four example cycles of the spec produce 2, 1, 1
and 0. -/
theorem C1_state_reconciliation :
    (∀ (coarse : String) (gc : Option String),
       stateUpdate (.ok (some coarse)) (.ok gc) = some (specReconcile coarse gc)) ∧
    stateUpdate (.ok (some "PRINTING")) (.ok (some "PAUSED")) = some 2 ∧
    stateUpdate (.ok (some "RUNNING")) (.ok none) = some 1 ∧
    stateUpdate (.ok (some "PRINTING")) (.ok (some "BOGUS")) = some 1 ∧
    stateUpdate (.ok (some "BOGUS")) (.ok none) = some 0 := by
  refine ⟨?_, by decide, by decide, by decide, by decide⟩
  intro coarse gc
  cases gc with
  | none => rfl
  | some gstr =>
    by_cases h : gstr = ""
    · subst h
      rfl
    · simp only [stateUpdate, specReconcile, h]
      rw [if_pos h]

/-- Claim C2, counterexample: the claim says an upper-cased raw value of
`FINISHED` is published as 3, but the mapping's key is `FINISH`, so
`FINISHED` is unrecognized and published as 0. -/
theorem C2_counterexample :
    stateUpdate (.ok (some "FINISHED")) (.ok none) = some 0 ∧
    stateUpdate (.ok (some "FINISHED")) (.ok none) ≠ some 3 ∧
    state_mapping.lookup "FINISHED" = none ∧
    pyUpper "FINISHED" = "FINISHED" := by decide

/-- Claim C2 (amended): the stable numeric encoding is IDLE=0, PRINTING=1
(RUNNING a synonym), PAUSED=2, FINISH=3, FAILED=4; every raw state signal
whose upper-cased value is recognized is published with its mapped value;
in particular a raw value of `FINISH` is published as 3. -/
theorem C2_canonical_encoding :
    state_mapping.lookup "IDLE" = some 0 ∧
    state_mapping.lookup "PRINTING" = some 1 ∧
    state_mapping.lookup "RUNNING" = some 1 ∧
    state_mapping.lookup "PAUSED" = some 2 ∧
    state_mapping.lookup "FINISH" = some 3 ∧
    state_mapping.lookup "FAILED" = some 4 ∧
    (∀ s : String, (state_mapping.lookup (pyUpper s)).isSome = true →
       stateUpdate (.ok (some s)) (.ok none) =
         some ((state_mapping.lookup (pyUpper s)).getD 0)) ∧
    stateUpdate (.ok (some "FINISH")) (.ok none) = some 3 := by
  refine ⟨by decide, by decide, by decide, by decide, by decide, by decide,
          ?_, by decide⟩
  intro s _
  rfl

/-- Witness for `C2_canonical_encoding` at the raw value `finish`. -/
theorem C2_canonical_encoding_witness :
    (state_mapping.lookup (pyUpper "finish")).isSome = true ∧
    stateUpdate (.ok (some "finish")) (.ok none) =
      some ((state_mapping.lookup (pyUpper "finish")).getD 0) :=
  ⟨by decide, C2_canonical_encoding.2.2.2.2.2.2.1 "finish" (by decide)⟩

/-- A cycle in which the transport is connected, every temperature getter
returns `None`, but the progress getter returns data. -/
def sampleSilentButData : Sample :=
  { idleSample with percentage := Except.ok (some 42) }

/-- Claim C3, counterexample: a telemetry field (progress) returns data on
a connected cycle, so the claim classifies the device ONLINE (gauge 1);
the code computes `data_received` from the three temperature reads alone
and classifies it OFFLINE_SILENT (gauge 0). -/
theorem C3_counterexample :
    sampleSilentButData.mqtt_connected = Except.ok true ∧
    specAnyFieldReturnedData sampleSilentButData = true ∧
    (updateDevice Gauges.init sampleSilentButData).printer_online = some 0 := by
  decide

/-- Claim C3 (amended): liveness classification, first match winning:
not connected → online gauge 0; connected but none of the three
temperature reads returned data → online gauge 0 (silent); otherwise
online gauge 1. The "any field returned data" input is computed solely
from the nozzle/bed/chamber temperature reads, not from the other
telemetry fields. -/
theorem C3_liveness_classification (g : Gauges) (s : Sample) :
    (s.mqtt_connected = Except.ok false →
       (updateDevice g s).printer_online = some 0) ∧
    (s.mqtt_connected = Except.ok true → tempDataReceived s = false →
       (updateDevice g s).printer_online = some 0) ∧
    (s.mqtt_connected = Except.ok true → tempDataReceived s = true →
       (updateDevice g s).printer_online = some 1) := by
  refine ⟨?_, ?_, ?_⟩
  · intro hc
    simp only [updateDevice, hc]
    rfl
  · intro hc hd
    simp only [updateDevice, hc, hd]
    simp [offlineResetSilent]
  · intro hc hd
    simp only [updateDevice, hc, hd, if_true]
    simp [updProgress_frame, updRemainingTime_frame, updCurrentLayer_frame,
          updTotalLayers_frame, updPrintSpeed_frame, updWifi_frame,
          updLight_frame, updState_frame, updErrorCode_frame]

/-- Witness for `C3_liveness_classification`: a disconnected cycle, a
silent cycle and a data-bearing cycle at concrete inputs. -/
theorem C3_liveness_classification_witness :
    (updateDevice Gauges.init
       { idleSample with mqtt_connected := Except.ok false }).printer_online = some 0 ∧
    (updateDevice Gauges.init idleSample).printer_online = some 0 ∧
    (updateDevice Gauges.init
       { idleSample with nozzle_temperature := Except.ok (some 210) }).printer_online = some 1 :=
  ⟨(C3_liveness_classification Gauges.init _).1 rfl,
   (C3_liveness_classification Gauges.init idleSample).2.1 rfl (by decide),
   (C3_liveness_classification Gauges.init _).2.2 rfl (by decide)⟩

/-- A cycle in which the transport reports not connected. -/
def sampleDisconnected : Sample :=
  { idleSample with mqtt_connected := Except.ok false }

/-- Gauges carrying a previously published wifi signal of -63 and chamber
light of 1. -/
def gaugesStale : Gauges :=
  { Gauges.init with wifi_signal := some (-63), chamber_light := some 1 }

/-- Like `gaugesStale` but with wifi -50, to show the retained value is
whatever was published before, not a defined offline value. -/
def gaugesStaleB : Gauges :=
  { Gauges.init with wifi_signal := some (-50), chamber_light := some 1 }

/-- Claim C4, counterexample: the offline reset does not set every
telemetry gauge to a defined offline value — the wifi-signal and
chamber-light gauges survive a disconnected cycle with whatever stale
value they had. -/
theorem C4_counterexample :
    (updateDevice gaugesStale sampleDisconnected).wifi_signal = some (-63) ∧
    (updateDevice gaugesStale sampleDisconnected).chamber_light = some 1 ∧
    (updateDevice gaugesStaleB sampleDisconnected).wifi_signal = some (-50) ∧
    (updateDevice gaugesStale sampleDisconnected).wifi_signal ≠ some 0 := by
  decide

/-- Claim C4 (amended): on every non-ONLINE cycle the twelve enumerated
gauges (the five temperatures, progress, remaining time, current/total
layers, speed, error code, canonical state) are set to 0 and the online
gauge to 0; the silent-case reset writes exactly the same gauges to the
same values as the disconnected-case reset, with no cross-cycle
memoization; the wifi-signal and chamber-light gauges and the
dynamic-label metrics are left unchanged. -/
theorem C4_offline_reset (g : Gauges) (s : Sample) :
    offlineResetDisconnected g = offlineResetSilent g ∧
    (s.mqtt_connected = Except.ok false →
       updateDevice g s = offlineResetDisconnected g) ∧
    (s.mqtt_connected = Except.ok true → tempDataReceived s = false →
       updateDevice g s = offlineResetSilent g) ∧
    (offlineResetDisconnected g).printer_online = some 0 ∧
    (offlineResetDisconnected g).nozzle_temp = some 0 ∧
    (offlineResetDisconnected g).nozzle_target_temp = some 0 ∧
    (offlineResetDisconnected g).bed_temp = some 0 ∧
    (offlineResetDisconnected g).bed_target_temp = some 0 ∧
    (offlineResetDisconnected g).chamber_temp = some 0 ∧
    (offlineResetDisconnected g).print_progress = some 0 ∧
    (offlineResetDisconnected g).print_remaining_time = some 0 ∧
    (offlineResetDisconnected g).current_layer = some 0 ∧
    (offlineResetDisconnected g).total_layers = some 0 ∧
    (offlineResetDisconnected g).print_speed = some 0 ∧
    (offlineResetDisconnected g).error_code = some 0 ∧
    (offlineResetDisconnected g).printer_state = some 0 ∧
    (offlineResetDisconnected g).wifi_signal = g.wifi_signal ∧
    (offlineResetDisconnected g).chamber_light = g.chamber_light ∧
    (offlineResetDisconnected g).current_file = g.current_file ∧
    (offlineResetDisconnected g).nozzle_info = g.nozzle_info := by
  refine ⟨rfl, ?_, ?_, rfl, rfl, rfl, rfl, rfl, rfl, rfl, rfl, rfl, rfl,
          rfl, rfl, rfl, rfl, rfl, rfl, rfl⟩
  · intro hc
    simp only [updateDevice, hc]
  · intro hc hd
    simp only [tempDataReceived, Bool.or_eq_false_iff] at hd
    obtain ⟨⟨h1, h2⟩, h3⟩ := hd
    simp only [updateDevice, hc,
               updNozzleTemp_absent _ _ h1, updBedTemp_absent _ _ h2,
               updChamberTemp_absent _ _ h3]
    rw [if_neg]
    simp [tempDataReceived, h1, h2, h3]

/-- Witness for `C4_offline_reset`: a disconnected cycle and a silent
cycle at concrete inputs, both producing the identical reset. -/
theorem C4_offline_reset_witness :
    updateDevice Gauges.init sampleDisconnected = offlineResetDisconnected Gauges.init ∧
    updateDevice Gauges.init idleSample = offlineResetSilent Gauges.init :=
  ⟨(C4_offline_reset Gauges.init sampleDisconnected).2.1 rfl,
   (C4_offline_reset Gauges.init idleSample).2.2.1 rfl (by decide)⟩

/-- An online cycle reporting the file `a.gcode`. -/
def sampleFileA : Sample :=
  { idleSample with nozzle_temperature := Except.ok (some 210),
                    file_name := Except.ok (some "a.gcode") }

/-- An online cycle reporting the file `b.gcode`. -/
def sampleFileB : Sample :=
  { idleSample with nozzle_temperature := Except.ok (some 210),
                    file_name := Except.ok (some "b.gcode") }

/-- Claim C5: dynamic-label single-active invariant. A present value
clears every previously published label combination and sets the single
new one to 1; every update leaves the family unchanged or with exactly
one active combination; the nozzle pair behaves the same way; and after
two consecutive cycles with filenames `a.gcode` then `b.gcode`, only
`b.gcode` is active and `a.gcode` is absent, not present with 0. -/
theorem C5_single_active (prev : List (String × Val)) (f : String) :
    (f ≠ "" → updateCurrentFile prev (Except.ok (some f)) = [(f, 1)]) ∧
    (∀ r, updateCurrentFile prev r = prev ∨
       ∃ fn, updateCurrentFile prev r = [(fn, 1)]) ∧
    (∀ (prevN : List ((String × String) × Val)) (ty dm : String),
       updateNozzleInfo prevN (Except.ok (some ty)) (Except.ok (some dm)) =
         [((ty, dm), 1)]) ∧
    (updateDevice (updateDevice Gauges.init sampleFileA) sampleFileB).current_file =
      [("b.gcode", 1)] ∧
    List.lookup "a.gcode"
      (updateDevice (updateDevice Gauges.init sampleFileA) sampleFileB).current_file =
      none := by
  refine ⟨?_, ?_, ?_, by decide, by decide⟩
  · intro h
    simp only [updateCurrentFile]
    rw [if_pos h]
  · intro r
    cases r with
    | error e => exact Or.inl rfl
    | ok o =>
      cases o with
      | none => exact Or.inl rfl
      | some f2 =>
        by_cases h : f2 = ""
        · left
          simp [updateCurrentFile, h]
        · right
          refine ⟨f2, ?_⟩
          simp only [updateCurrentFile]
          rw [if_pos h]
  · intro prevN ty dm
    rfl

/-- Witness for `C5_single_active`: replacing `a.gcode` by `b.gcode`
leaves exactly the new combination. -/
theorem C5_single_active_witness :
    updateCurrentFile [("a.gcode", 1)] (Except.ok (some "b.gcode")) =
      [("b.gcode", 1)] :=
  (C5_single_active [("a.gcode", 1)] "b.gcode").1 (by decide)

/-- An online cycle reporting the file `a.gcode` (claim C6's first cycle). -/
def sampleC6File : Sample :=
  { idleSample with nozzle_temperature := Except.ok (some 200),
                    file_name := Except.ok (some "a.gcode") }

/-- An online cycle on which the filename getter returns `None`. -/
def sampleC6Absent : Sample :=
  { idleSample with nozzle_temperature := Except.ok (some 200) }

/-- Claim C6, counterexample: the claim says the metric is empty for the
device while the value is absent, but the code only clears inside the
`if filename:` branch — after a cycle publishing `a.gcode` and a cycle
with no filename, the stale `a.gcode` combination is still present with
value 1 rather than the metric being empty. -/
theorem C6_counterexample :
    sampleC6Absent.file_name = Except.ok none ∧
    (updateDevice (updateDevice Gauges.init sampleC6File) sampleC6Absent).current_file =
      [("a.gcode", 1)] ∧
    (updateDevice (updateDevice Gauges.init sampleC6File) sampleC6Absent).current_file ≠
      [] := by
  decide

/-- Claim C6 (amended): when the dynamic-label value is absent this cycle
(getter returns `None`, raises, or returns a falsy value), no label
combination is republished and the metric family is left exactly as it
was — the previously published combination, if any, remains until a new
value arrives. -/
theorem C6_absent_no_republish (prev : List (String × Val))
    (prevN : List ((String × String) × Val)) (t d : Except Unit (Option String)) :
    updateCurrentFile prev (Except.ok none) = prev ∧
    updateCurrentFile prev (Except.error ()) = prev ∧
    updateCurrentFile prev (Except.ok (some "")) = prev ∧
    updateNozzleInfo prevN (Except.ok none) d = prevN ∧
    updateNozzleInfo prevN (Except.error ()) d = prevN ∧
    updateNozzleInfo prevN t (Except.ok none) = prevN ∧
    updateNozzleInfo prevN t (Except.error ()) = prevN := by
  refine ⟨rfl, rfl, rfl, ?_, ?_, ?_, ?_⟩
  · unfold updateNozzleInfo
    cases d with
    | error e => rfl
    | ok o => cases o <;> rfl
  · unfold updateNozzleInfo
    cases d with
    | error e => rfl
    | ok o => cases o <;> rfl
  · unfold updateNozzleInfo
    cases t with
    | error e => rfl
    | ok o => cases o <;> rfl
  · unfold updateNozzleInfo
    cases t with
    | error e => rfl
    | ok o => cases o <;> rfl

/-- A connected cycle in which the nozzle-temperature read raises, the
other temperatures return `None`, and progress returns data. -/
def sampleC7 : Sample :=
  { idleSample with nozzle_temperature := Except.error (),
                    percentage := Except.ok (some 50) }

/-- Claim C7, counterexample: the claim says only all fields returning no
data triggers the full offline reset, but on a connected cycle where a
single field (nozzle temperature) fails, the other temperatures are
`None`, and progress returns data, the code still performs the full
offline reset — the progress gauge ends at 0 and online at 0 even though
a telemetry field returned data. -/
theorem C7_counterexample :
    sampleC7.nozzle_temperature = Except.error () ∧
    specAnyFieldReturnedData sampleC7 = true ∧
    updateDevice Gauges.init sampleC7 = offlineResetSilent Gauges.init ∧
    (updateDevice Gauges.init sampleC7).print_progress = some 0 ∧
    (updateDevice Gauges.init sampleC7).printer_online = some 0 := by
  decide

/-- Claim C7 (amended): per-field fault isolation. A failure while
reading one telemetry field is caught and recorded as absent for that
field alone, and collection of the remaining fields proceeds: when the
nozzle-temperature read raises on a connected cycle while another
temperature still reports data, liveness stays ONLINE, the
nozzle-temperature gauge keeps its last published value, and a present
progress value is still published. The full offline reset is triggered
exactly when all three temperature reads return no data, regardless of
the remaining fields. -/
theorem C7_fault_isolation (g : Gauges) (s : Sample) (p : Val) :
    s.mqtt_connected = Except.ok true →
    s.nozzle_temperature = Except.error () →
    present s.bed_temperature = true →
    ((updateDevice g s).printer_online = some 1 ∧
     (updateDevice g s).nozzle_temp = g.nozzle_temp ∧
     (s.percentage = Except.ok (some p) →
        (updateDevice g s).print_progress = some p)) := by
  intro hc hn hb
  have hd : tempDataReceived s = true := by
    unfold tempDataReceived
    rw [hb]
    simp
  have hnz : updNozzleTemp g s.nozzle_temperature = g := by
    rw [hn]
    rfl
  refine ⟨?_, ?_, ?_⟩
  · simp only [updateDevice, hc, hd, if_true]
    simp [updProgress_frame, updRemainingTime_frame, updCurrentLayer_frame,
          updTotalLayers_frame, updPrintSpeed_frame, updWifi_frame,
          updLight_frame, updState_frame, updErrorCode_frame]
  · simp only [updateDevice, hc, hd, if_true, hnz]
    simp [updProgress_frame, updRemainingTime_frame, updCurrentLayer_frame,
          updTotalLayers_frame, updPrintSpeed_frame, updWifi_frame,
          updLight_frame, updState_frame, updErrorCode_frame,
          updBedTemp_frame, updChamberTemp_frame]
  · intro hp
    simp only [updateDevice, hc, hd, if_true, hp]
    simp [updRemainingTime_frame, updCurrentLayer_frame,
          updTotalLayers_frame, updPrintSpeed_frame, updWifi_frame,
          updLight_frame, updState_frame, updErrorCode_frame, updProgress]

/-- A connected cycle in which the nozzle read raises but the bed read
and the progress read return data. -/
def sampleC7w : Sample :=
  { idleSample with nozzle_temperature := Except.error (),
                    bed_temperature := Except.ok (some 60),
                    percentage := Except.ok (some 40) }

/-- Witness for `C7_fault_isolation` on `sampleC7w`. -/
theorem C7_fault_isolation_witness :
    (updateDevice Gauges.init sampleC7w).printer_online = some 1 ∧
    (updateDevice Gauges.init sampleC7w).nozzle_temp = Gauges.init.nozzle_temp ∧
    (updateDevice Gauges.init sampleC7w).print_progress = some 40 := by
  obtain ⟨h1, h2, h3⟩ :=
    C7_fault_isolation Gauges.init sampleC7w 40 rfl rfl (by decide)
  exact ⟨h1, h2, h3 rfl⟩

/-- Claim C8: unit normalization at collection time. A present
remaining-time value of `m` minutes is published as `m * 60` seconds; the
signal-strength string `-63dBm` is parsed to -63 and published; the
unparseable string `N/A` leaves the field untouched without escaping the
collector; a light-state string equal to `on` case-insensitively
publishes 1 and otherwise 0. -/
theorem C8_unit_normalization (g : Gauges) (s : Sample) (m : Val) (l : String) :
    (s.mqtt_connected = Except.ok true → tempDataReceived s = true →
       s.time = Except.ok (some m) →
       (updateDevice g s).print_remaining_time = some (m * 60)) ∧
    pyFloat (wifiClean "-63dBm") = some (-63) ∧
    (updWifi g (Except.ok (some "-63dBm"))).wifi_signal = some (-63) ∧
    pyFloat (wifiClean "N/A") = none ∧
    (updWifi g (Except.ok (some "N/A"))).wifi_signal = g.wifi_signal ∧
    (updLight g (Except.ok (some l))).chamber_light =
      some (if pyLower l = "on" then 1 else 0) ∧
    (updLight g (Except.ok (some "On"))).chamber_light = some 1 ∧
    (updLight g (Except.ok (some "OFF"))).chamber_light = some 0 := by
  refine ⟨?_, by decide, ?_, by decide, ?_, rfl, ?_, ?_⟩
  · intro hc hd hm
    simp only [updateDevice, hc, hd, if_true, hm]
    simp [updCurrentLayer_frame, updTotalLayers_frame, updPrintSpeed_frame,
          updWifi_frame, updLight_frame, updState_frame, updErrorCode_frame,
          updRemainingTime]
  · rfl
  · rfl
  · rfl
  · rfl

/-- A connected cycle with a present bed temperature and a remaining time
of 90 minutes. -/
def sampleC8w : Sample :=
  { idleSample with bed_temperature := Except.ok (some 55),
                    time := Except.ok (some 90) }

/-- Witness for `C8_unit_normalization`: 90 minutes publishes 5400
seconds. -/
theorem C8_unit_normalization_witness :
    (updateDevice Gauges.init sampleC8w).print_remaining_time = some (90 * 60) :=
  (C8_unit_normalization Gauges.init sampleC8w 90 "on").1 rfl (by decide) rfl

/-- Claim C9: per-device cycle-error isolation. When an unexpected
exception escapes the per-field handlers while updating one device
(modelled by the connectivity check raising, the first statement the
outer `try` executes), the `except` handler catches it and sets only that
device's online gauge to 0 — every other gauge keeps its previously
published value, no offline reset runs — and the remaining devices of the
cycle are still processed normally. -/
theorem C9_cycle_error_isolation (pre post : List (String × Gauges × Sample))
    (n : String) (g : Gauges) (s : Sample)
    (hex : s.mqtt_connected = Except.error ()) :
    update_metrics (pre ++ (n, g, s) :: post) =
      update_metrics pre ++
        (n, { g with printer_online := some 0 }) :: update_metrics post ∧
    updateDevice g s = { g with printer_online := some 0 } := by
  have hdev : updateDevice g s = { g with printer_online := some 0 } := by
    simp only [updateDevice, hex]
  refine ⟨?_, hdev⟩
  simp [update_metrics, hdev]

/-- A cycle whose connectivity check raises. -/
def sampleC9 : Sample :=
  { idleSample with mqtt_connected := Except.error () }

/-- Witness for `C9_cycle_error_isolation`: a two-printer fleet in which
the first printer's check raises; the second is still processed. -/
theorem C9_cycle_error_isolation_witness :
    update_metrics ([] ++ ("p1", Gauges.init, sampleC9) :: [("p2", Gauges.init, idleSample)]) =
      update_metrics [] ++
        ("p1", { Gauges.init with printer_online := some 0 }) ::
          update_metrics [("p2", Gauges.init, idleSample)] :=
  (C9_cycle_error_isolation [] [("p2", Gauges.init, idleSample)]
    "p1" Gauges.init sampleC9 rfl).1

/-- Gauges whose printer-state gauge was previously published as 2. -/
def gaugesC10 : Gauges := { Gauges.init with printer_state := some 2 }

/-- A silent connected cycle whose coarse-state getter raises while the
granular gcode-state is present and recognized. -/
def sampleC10 : Sample :=
  { idleSample with state := Except.error (),
                    gcode := Except.ok (some "PAUSED") }

/-- Claim C10, counterexample: the claim says that whenever the coarse
state getter returns `None` or raises, the printer-state gauge is left
unchanged for that cycle; but on a connected cycle in which all
temperature reads are silent, the offline reset sets the gauge to 0 even
though the coarse getter raised and the granular signal was present and
recognized. -/
theorem C10_counterexample :
    sampleC10.state = Except.error () ∧
    sampleC10.gcode = Except.ok (some "PAUSED") ∧
    (state_mapping.lookup "PAUSED").isSome = true ∧
    gaugesC10.printer_state = some 2 ∧
    (updateDevice gaugesC10 sampleC10).printer_state = some 0 := by
  decide

/-- Claim C10 (amended): on every cycle that reaches the state-update
block (connected, with temperature data), if the coarse state getter
returns `None` or raises, the printer-state gauge is left unchanged even
when the granular gcode-state signal is present and recognized — the
granular signal alone never causes a state update; on non-ONLINE cycles
the offline reset sets the gauge to 0 regardless of either signal. -/
theorem C10_coarse_state_gate (g : Gauges) (s : Sample) :
    (s.mqtt_connected = Except.ok true → tempDataReceived s = true →
       s.state = Except.ok none ∨ s.state = Except.error () →
       (updateDevice g s).printer_state = g.printer_state) ∧
    (∀ gc : Except Unit (Option String),
       stateUpdate (Except.ok none) gc = none ∧
       stateUpdate (Except.error ()) gc = none) := by
  constructor
  · intro hc hd hst
    have hsu : stateUpdate s.state s.gcode = none := by
      cases hst with
      | inl h => rw [h]; exact rfl
      | inr h => rw [h]; exact rfl
    simp only [updateDevice, hc, hd, if_true]
    simp [updNozzleTemp_frame, updBedTemp_frame, updChamberTemp_frame,
          updProgress_frame, updRemainingTime_frame, updCurrentLayer_frame,
          updTotalLayers_frame, updPrintSpeed_frame, updWifi_frame,
          updLight_frame, updErrorCode_frame, updState_unchanged _ _ _ hsu]
  · intro gc
    exact ⟨rfl, rfl⟩

/-- An online cycle whose coarse-state getter returns `None` while the
granular signal is present and recognized. -/
def sampleC10w : Sample :=
  { idleSample with bed_temperature := Except.ok (some 60),
                    state := Except.ok none,
                    gcode := Except.ok (some "PAUSED") }

/-- Witness for `C10_coarse_state_gate`: the gauge keeps its previous
value 2 on such a cycle. -/
theorem C10_coarse_state_gate_witness :
    (updateDevice gaugesC10 sampleC10w).printer_state = some 2 :=
  ((C10_coarse_state_gate gaugesC10 sampleC10w).1 rfl (by decide)
    (Or.inl rfl)).trans rfl
